import Mathlib

/-!
Shallow embedding of `service/configsync/configsync.go` from the
tokenetes-agent repository: the registration-and-heartbeat lifecycle
client (`Client`, `NewClient`, `Start`, `registerWithBackoff`,
`register`, `startHeartbeat`, `getLocalIP`).

Modelling conventions:
- Durations are natural numbers of nanoseconds, as Go's `time.Duration`
  counts nanoseconds; `timeSecond` models `time.Second`.
- The network, the JSON marshaller and `http.NewRequest` are external;
  each call site's possible outcomes are supplied as oracles (an
  outcome per attempt / per cycle).  `rand.Intn(n)` is modelled by
  `r k % n` for an arbitrary oracle `r : Nat → Nat`: its result is some
  value in `[0, n)`, the distributional (uniformity) part being the Go
  library's contract.
- The external Rules Store (`VerificationRulesManager`) is out of scope
  per the source's package boundary; `GetRulesVersionId()`'s per-cycle
  return value is an oracle `versions : Nat → String`, and calls the
  client makes to `UpdateRules` are recorded as an explicit effect
  trace (the source's `register` body contains no such call).
- Methods return their receiver alongside their result, so that the
  absence of field assignments in the Go source is visible as the
  receiver being returned unchanged.
-/

/-- Models `time.Second` (nanoseconds per second in Go's `time` package). -/
def timeSecond : Nat := 1000000000

/-- `MAX_REGISTRATION_ATTEMPTS = 5` from the source. -/
def MAX_REGISTRATION_ATTEMPTS : Nat := 5

/-- `FAILED_HEARTBEAT_RETRY_INTERVAL = 5 * time.Second` from the source. -/
def FAILED_HEARTBEAT_RETRY_INTERVAL : Nat := 5 * timeSecond

/-- One entry of `net.InterfaceAddrs()`: the source type-asserts each
entry to `*net.IPNet` (`isIPNet`), then tests `IP.IsLoopback()` and
`IP.To4() != nil` (IPv4), and renders the chosen IP with `IP.String()`
(`ipString`). -/
structure Addr where
  isIPNet : Bool
  isLoopback : Bool
  isIPv4 : Bool
  ipString : String
deriving Repr, DecidableEq

/-- `getLocalIP` from the source: walk the enumerated addresses; on the
first entry that is an `*net.IPNet`, not loopback, and IPv4, return its
string; if the walk ends, return the error.  The two nested `if`s of the
Go source (`ok && !IsLoopback`, then `To4() != nil`) both `continue` the
loop when false, so they fuse into one conjunction. -/
def getLocalIP : List Addr → Except String String
  | [] => Except.error "couldn't obtain a webhook IP address"
  | a :: rest =>
    if a.isIPNet && !a.isLoopback && a.isIPv4 then Except.ok a.ipString
    else getLocalIP rest

/-- The `Client` struct of the source.  The external collaborators
(`verificationRulesManager`, `httpClient`, `logger`) carry no state the
claims depend on and are modelled as oracles at the call sites; the
remaining fields are the data fields of the Go struct (`namespace` is a
Lean keyword, so the field is `nspace`). -/
structure Client where
  webhookPort : Int
  webhookIP : String
  tconfigdUrl : String
  serviceName : String
  nspace : String
  heartbeatInterval : Nat
deriving Repr, DecidableEq

/-- `NewClient` from the source: resolve the local IP (from the
enumerated addresses), fail if that fails, otherwise build the client
with the constructor-supplied fields. -/
def NewClient (WebhookPort : Int) (TconfigdUrl : String) (ServiceName : String)
    (nspace : String) (HeartbeatInterval : Nat) (addrs : List Addr) :
    Except String Client :=
  match getLocalIP addrs with
  | Except.error e => Except.error e
  | Except.ok webhookIP =>
    Except.ok
      { webhookPort := WebhookPort
        webhookIP := webhookIP
        tconfigdUrl := TconfigdUrl
        serviceName := ServiceName
        nspace := nspace
        heartbeatInterval := HeartbeatInterval }

/-- The `registrationRequest` struct of the source (wire body of
`POST {base}/register`). -/
structure registrationRequest where
  ipAddress : String
  port : Int
  serviceName : String
  nspace : String
deriving Repr, DecidableEq

/-- The `heartBeatRequest` struct of the source (wire body of
`POST {base}/heartbeat`). -/
structure heartBeatRequest where
  ipAddress : String
  port : Int
  serviceName : String
  nspace : String
  rulesVersionID : String
deriving Repr, DecidableEq

/-- The registration request the source's `register` builds from the
receiver's fields. -/
def registrationRequestOf (c : Client) : registrationRequest :=
  { ipAddress := c.webhookIP
    port := c.webhookPort
    serviceName := c.serviceName
    nspace := c.nspace }

/-- The heartbeat request cycle `i` of `startHeartbeat` builds from the
receiver's fields and the Rules Store version read at that moment. -/
def heartBeatRequestOf (c : Client) (version : String) : heartBeatRequest :=
  { ipAddress := c.webhookIP
    port := c.webhookPort
    serviceName := c.serviceName
    nspace := c.nspace
    rulesVersionID := version }

/-- The registration response body of the wire protocol
(`POST {base}/register`, 200): optional heartbeat-interval hint in
minutes and optional inline rule set (kept opaque).  The source never
decodes this body; it is carried in the model so that claims about it
can be stated. -/
structure registrationResponse where
  heartBeatIntervalMinutes : Option Nat
  verificationRules : Option String
deriving Repr, DecidableEq

/-- Outcome of the external calls inside one execution of `register`:
`json.Marshal` fails, `http.NewRequest` fails, `httpClient.Do` fails
(transport), or a response with a status code and body arrives. -/
inductive RegisterOutcome where
  | marshalError
  | newRequestError
  | transportError
  | response (code : Nat) (body : registrationResponse)
deriving Repr, DecidableEq

/-- Everything one execution of the source's `register` produces:
the receiver after the call (the Go body assigns to no field of `c`,
so it is returned unchanged), whether the attempt succeeded (`nil`
error), the request that was built, how many network round trips
(`httpClient.Do` calls) ran, and the arguments of every
`UpdateRules` call made on the Rules Store (the source's `register`
body makes none in any branch). -/
structure RegisterResult where
  client : Client
  success : Bool
  request : registrationRequest
  roundTrips : Nat
  updateRulesCalls : List String
deriving Repr, DecidableEq

/-- `register` from the source: build the request from the receiver's
fields; a marshal or request-construction failure returns before any
network call; a transport failure or a non-200 status is a failed
attempt after one round trip; a 200 status is success.  No branch reads
the response body and no branch calls `UpdateRules`. -/
def register (c : Client) (o : RegisterOutcome) : RegisterResult :=
  match o with
  | RegisterOutcome.marshalError =>
    { client := c, success := false, request := registrationRequestOf c
      roundTrips := 0, updateRulesCalls := [] }
  | RegisterOutcome.newRequestError =>
    { client := c, success := false, request := registrationRequestOf c
      roundTrips := 0, updateRulesCalls := [] }
  | RegisterOutcome.transportError =>
    { client := c, success := false, request := registrationRequestOf c
      roundTrips := 1, updateRulesCalls := [] }
  | RegisterOutcome.response code _body =>
    { client := c, success := code == 200, request := registrationRequestOf c
      roundTrips := 1, updateRulesCalls := [] }

/-- Whether a `register` call with this outcome returns `nil` (the
source returns `nil` exactly when `httpClient.Do` succeeded with
status 200). -/
def registerSucceeds : RegisterOutcome → Bool
  | RegisterOutcome.response code _ => code == 200
  | _ => false

/-- Trace of one `registerWithBackoff` execution: whether it returned
`nil`, how many `register` calls ran, the request built by each call,
and the backoff sleeps, each recorded as
`(attempt counter after increment, nanoseconds slept)`. -/
structure BackoffTrace where
  success : Bool
  attemptsMade : Nat
  requests : List registrationRequest
  sleeps : List (Nat × Nat)
deriving Repr, DecidableEq

/-- The `for` loop of the source's `registerWithBackoff`.  `attempt` is
the counter (the source starts it at 0 and increments after each
failure, so call number `attempt` uses `outcomes attempt`); `fuel` is
`MAX_REGISTRATION_ATTEMPTS - attempt`, enough because the counter stops
the loop at 5.  On failure the counter is incremented; at the limit the
loop returns the error; otherwise `rand.Intn(1 << attempt)` seconds
(`r attempt % 2 ^ attempt`, `1 <<< attempt = 2 ^ attempt`) are slept and
the loop repeats.  On success it breaks at once. -/
def registerWithBackoffLoop (c : Client) (outcomes : Nat → RegisterOutcome)
    (r : Nat → Nat) : Nat → Nat → BackoffTrace
  | _, 0 => { success := false, attemptsMade := 0, requests := [], sleeps := [] }
  | attempt, fuel + 1 =>
    if (register c (outcomes attempt)).success then
      { success := true, attemptsMade := 1
        requests := [(register c (outcomes attempt)).request], sleeps := [] }
    else if MAX_REGISTRATION_ATTEMPTS ≤ attempt + 1 then
      { success := false, attemptsMade := 1
        requests := [(register c (outcomes attempt)).request], sleeps := [] }
    else
      { success := (registerWithBackoffLoop c outcomes r (attempt + 1) fuel).success
        attemptsMade :=
          (registerWithBackoffLoop c outcomes r (attempt + 1) fuel).attemptsMade + 1
        requests :=
          (register c (outcomes attempt)).request ::
            (registerWithBackoffLoop c outcomes r (attempt + 1) fuel).requests
        sleeps :=
          (attempt + 1, (r (attempt + 1) % 2 ^ (attempt + 1)) * timeSecond) ::
            (registerWithBackoffLoop c outcomes r (attempt + 1) fuel).sleeps }

/-- `registerWithBackoff` from the source: run the loop with the
attempt counter starting at 0. -/
def registerWithBackoff (c : Client) (outcomes : Nat → RegisterOutcome)
    (r : Nat → Nat) : BackoffTrace :=
  registerWithBackoffLoop c outcomes r 0 MAX_REGISTRATION_ATTEMPTS

/-- What `Start` returns and does: whether it returned an error, whether
it launched `go c.startHeartbeat()`, and how many registration attempts
ran. -/
structure StartResult where
  err : Bool
  heartbeatStarted : Bool
  registerAttempts : Nat
deriving Repr, DecidableEq

/-- `Start` from the source: block on `registerWithBackoff`; on error,
return the wrapped error without starting heartbeats; on success,
launch `startHeartbeat` as a background task and return `nil`. -/
def Start (c : Client) (outcomes : Nat → RegisterOutcome) (r : Nat → Nat) :
    StartResult :=
  if (registerWithBackoff c outcomes r).success then
    { err := false, heartbeatStarted := true
      registerAttempts := (registerWithBackoff c outcomes r).attemptsMade }
  else
    { err := true, heartbeatStarted := false
      registerAttempts := (registerWithBackoff c outcomes r).attemptsMade }

/-- Outcome of the external calls inside one heartbeat cycle:
`json.Marshal` fails, `http.NewRequest` fails, `httpClient.Do` fails
(transport), or a response with a status code arrives. -/
inductive HeartbeatOutcome where
  | marshalError
  | newRequestError
  | transportError
  | response (code : Nat)
deriving Repr, DecidableEq

/-- Whether a heartbeat cycle with this outcome is a failed cycle (any
outcome other than a response with status 200). -/
def heartbeatOutcomeFailed : HeartbeatOutcome → Bool
  | HeartbeatOutcome.response code => !(code == 200)
  | _ => true

/-- Everything one cycle of the source's `startHeartbeat` loop produces:
the request it built, the sleep (nanoseconds) it ends with, the message
it logged, and the error it returned to its caller (the Go function has
no return value and every branch falls through to the next iteration,
so this is `none` in every branch). -/
structure heartBeatCycleRecord where
  request : heartBeatRequest
  sleep : Nat
  logged : String
  returnedErr : Option String
deriving Repr, DecidableEq

/-- One cycle of the source's `startHeartbeat` loop: build the request
from the receiver's fields and `GetRulesVersionId()` read now
(`version`); a marshal, request-construction, or transport failure, or
a non-200 status, logs and sleeps `FAILED_HEARTBEAT_RETRY_INTERVAL`; a
200 status logs success and sleeps `c.heartbeatInterval`.  No branch
returns. -/
def startHeartbeatCycle (c : Client) (version : String) (o : HeartbeatOutcome) :
    heartBeatCycleRecord :=
  match o with
  | HeartbeatOutcome.marshalError =>
    { request := heartBeatRequestOf c version
      sleep := FAILED_HEARTBEAT_RETRY_INTERVAL
      logged := "Failed to marshal heartbeat request", returnedErr := none }
  | HeartbeatOutcome.newRequestError =>
    { request := heartBeatRequestOf c version
      sleep := FAILED_HEARTBEAT_RETRY_INTERVAL
      logged := "Failed to create heartbeat request", returnedErr := none }
  | HeartbeatOutcome.transportError =>
    { request := heartBeatRequestOf c version
      sleep := FAILED_HEARTBEAT_RETRY_INTERVAL
      logged := "Failed to send heartbeat", returnedErr := none }
  | HeartbeatOutcome.response code =>
    if !(code == 200) then
      { request := heartBeatRequestOf c version
        sleep := FAILED_HEARTBEAT_RETRY_INTERVAL
        logged := "Received non-ok heartbeat response", returnedErr := none }
    else
      { request := heartBeatRequestOf c version
        sleep := c.heartbeatInterval
        logged := "Heartbeat sent successfully", returnedErr := none }

/-- The first `n` cycles of the source's `startHeartbeat` loop.  The Go
`for` body contains no `break` and no `return`, so the loop performs a
cycle for every `n`; `versions i` is what the Rules Store's
`GetRulesVersionId()` returns when cycle `i` builds its request, and
`outcomes i` is cycle `i`'s external outcome. -/
def startHeartbeat (c : Client) (versions : Nat → String)
    (outcomes : Nat → HeartbeatOutcome) : Nat → List heartBeatCycleRecord
  | 0 => []
  | n + 1 =>
    startHeartbeat c versions outcomes n ++
      [startHeartbeatCycle c (versions n) (outcomes n)]

/-- The filter of `getLocalIP`'s loop restricted to the IP tests: not a
loopback address and IPv4 (`net.InterfaceAddrs()` returns `*net.IPNet`
entries, so the type assertion is the identity on its output). -/
def usableAddr (a : Addr) : Bool := !a.isLoopback && a.isIPv4

/-- A concrete client, used to instantiate theorems on explicit inputs. -/
def sampleClient : Client :=
  { webhookPort := 9000
    webhookIP := "10.0.0.7"
    tconfigdUrl := "https://tconfigd.example"
    serviceName := "order-service"
    nspace := "default"
    heartbeatInterval := 600 * timeSecond }

theorem register_client_eq (c : Client) (o : RegisterOutcome) :
    (register c o).client = c := by
  cases o <;> rfl

theorem register_request_eq (c : Client) (o : RegisterOutcome) :
    (register c o).request = registrationRequestOf c := by
  cases o <;> rfl

theorem register_success_eq (c : Client) (o : RegisterOutcome) :
    (register c o).success = registerSucceeds o := by
  cases o <;> rfl

theorem registerWithBackoffLoop_all_fail (c : Client)
    (outcomes : Nat → RegisterOutcome) (r : Nat → Nat) :
    ∀ fuel attempt, attempt + fuel = MAX_REGISTRATION_ATTEMPTS →
      (∀ i, i < MAX_REGISTRATION_ATTEMPTS → registerSucceeds (outcomes i) = false) →
      (registerWithBackoffLoop c outcomes r attempt fuel).success = false ∧
      (registerWithBackoffLoop c outcomes r attempt fuel).attemptsMade = fuel := by
  intro fuel
  induction fuel with
  | zero =>
    intro attempt hsum h
    simp [registerWithBackoffLoop]
  | succ f ih =>
    intro attempt hsum h
    have hattempt : attempt < MAX_REGISTRATION_ATTEMPTS := by omega
    have hfail : (register c (outcomes attempt)).success = false := by
      rw [register_success_eq]
      exact h attempt hattempt
    by_cases hlim : MAX_REGISTRATION_ATTEMPTS ≤ attempt + 1
    · have hf : f = 0 := by
        unfold MAX_REGISTRATION_ATTEMPTS at hsum hlim
        omega
      subst hf
      simp [registerWithBackoffLoop, hfail, hlim]
    · have hrec := ih (attempt + 1) (by omega) h
      simp [registerWithBackoffLoop, hfail, hlim, hrec.1, hrec.2]

theorem registerWithBackoffLoop_success (c : Client)
    (outcomes : Nat → RegisterOutcome) (r : Nat → Nat) :
    ∀ fuel attempt, attempt + fuel = MAX_REGISTRATION_ATTEMPTS →
      (∃ i, attempt ≤ i ∧ i < MAX_REGISTRATION_ATTEMPTS ∧
        registerSucceeds (outcomes i) = true) →
      (registerWithBackoffLoop c outcomes r attempt fuel).success = true := by
  intro fuel
  induction fuel with
  | zero =>
    intro attempt hsum hex
    obtain ⟨i, h1, h2, _⟩ := hex
    omega
  | succ f ih =>
    intro attempt hsum hex
    by_cases hs : (register c (outcomes attempt)).success = true
    · simp [registerWithBackoffLoop, hs]
    · rw [Bool.not_eq_true] at hs
      obtain ⟨i, h1, h2, h3⟩ := hex
      have hne : i ≠ attempt := by
        intro he
        rw [he] at h3
        rw [register_success_eq, h3] at hs
        exact absurd hs (by simp)
      have hlim : ¬ (MAX_REGISTRATION_ATTEMPTS ≤ attempt + 1) := by
        have : attempt + 1 ≤ i := by omega
        omega
      have hrec := ih (attempt + 1) (by omega) ⟨i, by omega, h2, h3⟩
      simp [registerWithBackoffLoop, hs, hlim, hrec]

theorem registerWithBackoffLoop_sleeps (c : Client)
    (outcomes : Nat → RegisterOutcome) (r : Nat → Nat) :
    ∀ fuel attempt p, p ∈ (registerWithBackoffLoop c outcomes r attempt fuel).sleeps →
      attempt + 1 ≤ p.1 ∧ p.1 < MAX_REGISTRATION_ATTEMPTS ∧
      ∃ m, m < 2 ^ p.1 ∧ p.2 = m * timeSecond := by
  intro fuel
  induction fuel with
  | zero =>
    intro attempt p hp
    simp [registerWithBackoffLoop] at hp
  | succ f ih =>
    intro attempt p hp
    by_cases hs : (register c (outcomes attempt)).success = true
    · simp [registerWithBackoffLoop, hs] at hp
    · rw [Bool.not_eq_true] at hs
      by_cases hlim : MAX_REGISTRATION_ATTEMPTS ≤ attempt + 1
      · simp [registerWithBackoffLoop, hs, hlim] at hp
      · simp only [registerWithBackoffLoop, hs, hlim, Bool.false_eq_true, if_false,
          List.mem_cons] at hp
        rcases hp with hp | hp
        · subst hp
          refine ⟨Nat.le_refl _, by omega, r (attempt + 1) % 2 ^ (attempt + 1), ?_, rfl⟩
          exact Nat.mod_lt _ (Nat.pos_pow_of_pos _ (by omega))
        · have hrec := ih (attempt + 1) p hp
          exact ⟨by omega, hrec.2.1, hrec.2.2⟩

theorem registerWithBackoffLoop_requests (c : Client)
    (outcomes : Nat → RegisterOutcome) (r : Nat → Nat) :
    ∀ fuel attempt req, req ∈ (registerWithBackoffLoop c outcomes r attempt fuel).requests →
      req = registrationRequestOf c := by
  intro fuel
  induction fuel with
  | zero =>
    intro attempt req hreq
    simp [registerWithBackoffLoop] at hreq
  | succ f ih =>
    intro attempt req hreq
    by_cases hs : (register c (outcomes attempt)).success = true
    · simp [registerWithBackoffLoop, hs] at hreq
      rw [hreq]
      exact register_request_eq c (outcomes attempt)
    · rw [Bool.not_eq_true] at hs
      by_cases hlim : MAX_REGISTRATION_ATTEMPTS ≤ attempt + 1
      · simp [registerWithBackoffLoop, hs, hlim] at hreq
        rw [hreq]
        exact register_request_eq c (outcomes attempt)
      · simp only [registerWithBackoffLoop, hs, hlim, Bool.false_eq_true, if_false,
          List.mem_cons] at hreq
        rcases hreq with hreq | hreq
        · rw [hreq]
          exact register_request_eq c (outcomes attempt)
        · exact ih (attempt + 1) req hreq

theorem startHeartbeatCycle_request (c : Client) (v : String) (o : HeartbeatOutcome) :
    (startHeartbeatCycle c v o).request = heartBeatRequestOf c v := by
  cases o with
  | marshalError => rfl
  | newRequestError => rfl
  | transportError => rfl
  | response code =>
    simp only [startHeartbeatCycle]
    split <;> rfl

theorem startHeartbeatCycle_returnedErr (c : Client) (v : String) (o : HeartbeatOutcome) :
    (startHeartbeatCycle c v o).returnedErr = none := by
  cases o with
  | marshalError => rfl
  | newRequestError => rfl
  | transportError => rfl
  | response code =>
    simp only [startHeartbeatCycle]
    split <;> rfl

theorem startHeartbeatCycle_sleep_failed (c : Client) (v : String)
    (o : HeartbeatOutcome) (h : heartbeatOutcomeFailed o = true) :
    (startHeartbeatCycle c v o).sleep = FAILED_HEARTBEAT_RETRY_INTERVAL := by
  cases o with
  | marshalError => rfl
  | newRequestError => rfl
  | transportError => rfl
  | response code =>
    have hne : code ≠ 200 := by
      simpa [heartbeatOutcomeFailed] using h
    simp [startHeartbeatCycle, hne]

theorem startHeartbeatCycle_sleep_ok (c : Client) (v : String) :
    (startHeartbeatCycle c v (HeartbeatOutcome.response 200)).sleep =
      c.heartbeatInterval := rfl

theorem startHeartbeat_length (c : Client) (v : Nat → String)
    (o : Nat → HeartbeatOutcome) : ∀ n, (startHeartbeat c v o n).length = n := by
  intro n
  induction n with
  | zero => rfl
  | succ n ih => simp [startHeartbeat, ih]

theorem startHeartbeat_get (c : Client) (v : Nat → String)
    (o : Nat → HeartbeatOutcome) : ∀ n i, i < n →
      (startHeartbeat c v o n).get? i =
        some (startHeartbeatCycle c (v i) (o i)) := by
  intro n
  induction n with
  | zero =>
    intro i h
    omega
  | succ n ih =>
    intro i h
    by_cases hi : i < n
    · show (startHeartbeat c v o n ++ [startHeartbeatCycle c (v n) (o n)]).get? i = _
      rw [List.get?_append]
      · exact ih i hi
      · rw [startHeartbeat_length]
        exact hi
    · have hin : i = n := by omega
      subst hin
      show (startHeartbeat c v o i ++ [startHeartbeatCycle c (v i) (o i)]).get? i = _
      have hl := startHeartbeat_length c v o i
      calc (startHeartbeat c v o i ++ [startHeartbeatCycle c (v i) (o i)]).get? i
          = (startHeartbeat c v o i ++
              [startHeartbeatCycle c (v i) (o i)]).get? (startHeartbeat c v o i).length := by
            rw [hl]
        _ = some (startHeartbeatCycle c (v i) (o i)) := List.get?_concat_length _ _

theorem startHeartbeat_mem (c : Client) (v : Nat → String)
    (o : Nat → HeartbeatOutcome) : ∀ n rec, rec ∈ startHeartbeat c v o n →
      ∃ i, i < n ∧ rec = startHeartbeatCycle c (v i) (o i) := by
  intro n
  induction n with
  | zero =>
    intro rec h
    simp [startHeartbeat] at h
  | succ n ih =>
    intro rec h
    rw [show startHeartbeat c v o (n + 1) =
        startHeartbeat c v o n ++ [startHeartbeatCycle c (v n) (o n)] from rfl] at h
    rcases List.mem_append.mp h with h | h
    · obtain ⟨i, hi, he⟩ := ih rec h
      exact ⟨i, by omega, he⟩
    · rw [List.mem_singleton] at h
      exact ⟨n, by omega, h⟩

theorem getLocalIP_find (addrs : List Addr)
    (h : ∀ a ∈ addrs, a.isIPNet = true) :
    getLocalIP addrs =
      (match addrs.find? usableAddr with
        | some a => Except.ok a.ipString
        | none => Except.error "couldn't obtain a webhook IP address") := by
  induction addrs with
  | nil => rfl
  | cons a rest ih =>
    have ha : a.isIPNet = true := h a (List.mem_cons_self a rest)
    have ih' := ih (fun x hx => h x (List.mem_cons_of_mem a hx))
    by_cases hu : usableAddr a = true
    · have hcond : (a.isIPNet && !a.isLoopback && a.isIPv4) = true := by
        simp only [usableAddr, Bool.and_eq_true] at hu ⊢
        exact ⟨⟨ha, hu.1⟩, hu.2⟩
      rw [List.find?_cons_of_pos _ hu]
      simp only [getLocalIP, hcond, if_true]
    · rw [Bool.not_eq_true] at hu
      have hcond : (a.isIPNet && !a.isLoopback && a.isIPv4) = false := by
        simp only [usableAddr, ha] at hu ⊢
        simp only [Bool.true_and]
        exact hu
      rw [List.find?_cons_of_neg _ (by simp [hu])]
      simp only [getLocalIP, hcond, if_false]
      exact ih'

/-- C1: `Start()` blocks until registration either succeeds or exhausts
its attempt budget.  If every registration attempt fails, `Start()`
returns an exhaustion error after exactly 5 attempts and the heartbeat
loop is never started; if some attempt succeeds, `Start()` returns no
error and launches the heartbeat loop as a background task. -/
theorem Start_exhaustion_or_launch (c : Client) (outcomes : Nat → RegisterOutcome)
    (r : Nat → Nat) :
    ((∀ i, i < MAX_REGISTRATION_ATTEMPTS → registerSucceeds (outcomes i) = false) →
      Start c outcomes r =
        { err := true, heartbeatStarted := false,
          registerAttempts := MAX_REGISTRATION_ATTEMPTS }) ∧
    ((∃ i, i < MAX_REGISTRATION_ATTEMPTS ∧ registerSucceeds (outcomes i) = true) →
      (Start c outcomes r).err = false ∧
      (Start c outcomes r).heartbeatStarted = true) := by
  constructor
  · intro h
    have hall := registerWithBackoffLoop_all_fail c outcomes r
      MAX_REGISTRATION_ATTEMPTS 0 (by omega) h
    simp only [Start, registerWithBackoff, hall.1, hall.2, Bool.false_eq_true,
      if_false]
  · rintro ⟨i, hi, hsucc⟩
    have hs := registerWithBackoffLoop_success c outcomes r
      MAX_REGISTRATION_ATTEMPTS 0 (by omega) ⟨i, Nat.zero_le i, hi, hsucc⟩
    simp only [Start, registerWithBackoff, hs, if_true]
    exact ⟨trivial, trivial⟩

theorem Start_exhaustion_or_launch_witness :
    Start sampleClient (fun _ => RegisterOutcome.transportError) (fun _ => 0) =
      { err := true, heartbeatStarted := false,
        registerAttempts := MAX_REGISTRATION_ATTEMPTS } ∧
    (Start sampleClient
        (fun _ => RegisterOutcome.response 200
          { heartBeatIntervalMinutes := none, verificationRules := none })
        (fun _ => 0)).err = false ∧
    (Start sampleClient
        (fun _ => RegisterOutcome.response 200
          { heartBeatIntervalMinutes := none, verificationRules := none })
        (fun _ => 0)).heartbeatStarted = true :=
  ⟨(Start_exhaustion_or_launch sampleClient (fun _ => RegisterOutcome.transportError)
      (fun _ => 0)).1 (fun _ _ => rfl),
    (Start_exhaustion_or_launch sampleClient
        (fun _ => RegisterOutcome.response 200
          { heartBeatIntervalMinutes := none, verificationRules := none })
        (fun _ => 0)).2 ⟨0, by decide, rfl⟩⟩

/-- C2: for every failed registration attempt with attempt counter `a`
in `[1, 4]`, the backoff delay slept before the next attempt is an
integer number of seconds in `[0, 2 ^ a)` (as an amount of time it is
`m * timeSecond` with `m < 2 ^ a`; `m` is drawn by `rand.Intn`, whose
uniformity is the Go library's contract). -/
theorem registration_backoff_range (c : Client) (outcomes : Nat → RegisterOutcome)
    (r : Nat → Nat) (p : Nat × Nat)
    (hp : p ∈ (registerWithBackoff c outcomes r).sleeps) :
    1 ≤ p.1 ∧ p.1 ≤ 4 ∧ ∃ m, m < 2 ^ p.1 ∧ p.2 = m * timeSecond := by
  unfold registerWithBackoff at hp
  have h := registerWithBackoffLoop_sleeps c outcomes r MAX_REGISTRATION_ATTEMPTS 0 p hp
  refine ⟨h.1, ?_, h.2.2⟩
  have h2 := h.2.1
  unfold MAX_REGISTRATION_ATTEMPTS at h2
  omega

theorem registration_backoff_range_witness :
    (1, timeSecond) ∈
      (registerWithBackoff sampleClient (fun _ => RegisterOutcome.transportError)
        (fun _ => 1)).sleeps ∧
    (1 ≤ 1 ∧ 1 ≤ 4 ∧ ∃ m, m < 2 ^ 1 ∧ timeSecond = m * timeSecond) :=
  ⟨by decide,
    registration_backoff_range sampleClient (fun _ => RegisterOutcome.transportError)
      (fun _ => 1) (1, timeSecond) (by decide)⟩

/-- C3 counterexample: a registration attempt that receives a 200
response whose body carries a rule-set payload results in zero
`UpdateRules` calls, not exactly one — the source's `register` never
decodes the response body and never touches the Rules Store. -/
theorem register_updateRules_counterexample :
    (register sampleClient
        (RegisterOutcome.response 200
          { heartBeatIntervalMinutes := some 7,
            verificationRules := some "rules-doc" })).success = true ∧
    (register sampleClient
        (RegisterOutcome.response 200
          { heartBeatIntervalMinutes := some 7,
            verificationRules := some "rules-doc" })).updateRulesCalls.length = 0 ∧
    ¬ ((register sampleClient
        (RegisterOutcome.response 200
          { heartBeatIntervalMinutes := some 7,
            verificationRules := some "rules-doc" })).updateRulesCalls.length = 1) := by
  refine ⟨rfl, rfl, ?_⟩
  intro h
  simp [register] at h

/-- C3 amended: for every registration attempt — any outcome, any
status, the rule-set payload present or absent — the client calls
`UpdateRules` zero times during registration. -/
theorem register_updateRules_never (c : Client) (o : RegisterOutcome) :
    (register c o).updateRulesCalls = [] := by
  cases o <;> rfl

/-- C4: in every heartbeat cycle, a failed outcome (marshal failure,
request-construction failure, transport failure, or non-200 status) is
followed by a wait of exactly `FAILED_HEARTBEAT_RETRY_INTERVAL`
(5 seconds) before the next cycle, and a successful outcome (status
200) is followed by a wait of exactly the configured heartbeat
interval. -/
theorem heartbeat_cycle_sleep (c : Client) (v : Nat → String)
    (o : Nat → HeartbeatOutcome) (n i : Nat) (h : i < n) :
    ∃ rec, (startHeartbeat c v o n).get? i = some rec ∧
      (heartbeatOutcomeFailed (o i) = true →
        rec.sleep = FAILED_HEARTBEAT_RETRY_INTERVAL) ∧
      (o i = HeartbeatOutcome.response 200 →
        rec.sleep = c.heartbeatInterval) := by
  refine ⟨startHeartbeatCycle c (v i) (o i), startHeartbeat_get c v o n i h, ?_, ?_⟩
  · intro hf
    exact startHeartbeatCycle_sleep_failed c (v i) (o i) hf
  · intro ho
    rw [ho]
    exact startHeartbeatCycle_sleep_ok c (v i)

theorem heartbeat_cycle_sleep_witness :
    (∃ rec, (startHeartbeat sampleClient (fun _ => "v1")
        (fun _ => HeartbeatOutcome.transportError) 1).get? 0 = some rec ∧
      rec.sleep = FAILED_HEARTBEAT_RETRY_INTERVAL) ∧
    (∃ rec, (startHeartbeat sampleClient (fun _ => "v1")
        (fun _ => HeartbeatOutcome.response 200) 1).get? 0 = some rec ∧
      rec.sleep = sampleClient.heartbeatInterval) := by
  constructor
  · obtain ⟨rec, h1, h2, _⟩ := heartbeat_cycle_sleep sampleClient (fun _ => "v1")
      (fun _ => HeartbeatOutcome.transportError) 1 0 (by decide)
    exact ⟨rec, h1, h2 rfl⟩
  · obtain ⟨rec, h1, _, h3⟩ := heartbeat_cycle_sleep sampleClient (fun _ => "v1")
      (fun _ => HeartbeatOutcome.response 200) 1 0 (by decide)
    exact ⟨rec, h1, h3 rfl⟩

/-- C5: once started, the heartbeat loop never terminates and never
escalates a failure: after any number `n` of cycles, whatever each
cycle's outcome, the loop has performed exactly `n` cycles (there is no
exit path in the body), and no cycle returns or propagates an error. -/
theorem heartbeat_loop_never_terminates (c : Client) (v : Nat → String)
    (o : Nat → HeartbeatOutcome) (n : Nat) :
    (startHeartbeat c v o n).length = n ∧
    ∀ rec ∈ startHeartbeat c v o n, rec.returnedErr = none := by
  refine ⟨startHeartbeat_length c v o n, ?_⟩
  intro rec hrec
  obtain ⟨i, _, he⟩ := startHeartbeat_mem c v o n rec hrec
  rw [he]
  exact startHeartbeatCycle_returnedErr c (v i) (o i)

theorem heartbeat_loop_never_terminates_witness :
    (startHeartbeat sampleClient (fun _ => "v1")
        (fun _ => HeartbeatOutcome.response 503) 3).length = 3 ∧
    ∀ rec ∈ startHeartbeat sampleClient (fun _ => "v1")
        (fun _ => HeartbeatOutcome.response 503) 3, rec.returnedErr = none :=
  heartbeat_loop_never_terminates sampleClient (fun _ => "v1")
    (fun _ => HeartbeatOutcome.response 503) 3

/-- C6: every heartbeat request carries the Rules Store's version
identifier as read at the moment that cycle builds its request: cycle
`i`'s request is built from the version `v i` current at that moment,
so the first heartbeat after registration uses `v 0` and a version
change effected by an `updateRules` call before cycle `i` is what
`v i` reports. -/
theorem heartbeat_version_read_per_cycle (c : Client) (v : Nat → String)
    (o : Nat → HeartbeatOutcome) (n i : Nat) (h : i < n) :
    ∃ rec, (startHeartbeat c v o n).get? i = some rec ∧
      rec.request = heartBeatRequestOf c (v i) ∧
      rec.request.rulesVersionID = v i := by
  refine ⟨startHeartbeatCycle c (v i) (o i), startHeartbeat_get c v o n i h, ?_, ?_⟩
  · exact startHeartbeatCycle_request c (v i) (o i)
  · rw [startHeartbeatCycle_request c (v i) (o i)]
    rfl

theorem heartbeat_version_read_per_cycle_witness :
    (∃ rec, (startHeartbeat sampleClient
        (fun i => if i = 0 then "version-0" else "version-1")
        (fun _ => HeartbeatOutcome.response 200) 2).get? 0 = some rec ∧
      rec.request = heartBeatRequestOf sampleClient "version-0" ∧
      rec.request.rulesVersionID = "version-0") ∧
    (∃ rec, (startHeartbeat sampleClient
        (fun i => if i = 0 then "version-0" else "version-1")
        (fun _ => HeartbeatOutcome.response 200) 2).get? 1 = some rec ∧
      rec.request = heartBeatRequestOf sampleClient "version-1" ∧
      rec.request.rulesVersionID = "version-1") :=
  ⟨heartbeat_version_read_per_cycle sampleClient
      (fun i => if i = 0 then "version-0" else "version-1")
      (fun _ => HeartbeatOutcome.response 200) 2 0 (by decide),
    heartbeat_version_read_per_cycle sampleClient
      (fun i => if i = 0 then "version-0" else "version-1")
      (fun _ => HeartbeatOutcome.response 200) 2 1 (by decide)⟩

/-- C7: a single registration attempt performs at most one network
round trip with no internal retry, and every non-200 response, as well
as any transport error (and the pre-network failures), makes the
attempt a failure without any `UpdateRules` call on the Rules Store.
(The source performs no response decoding, so no decoding-error path
exists.) -/
theorem register_single_round_trip (c : Client) (o : RegisterOutcome) :
    (register c o).roundTrips ≤ 1 ∧
    (register c o).updateRulesCalls = [] ∧
    (∀ code body, o = RegisterOutcome.response code body → code ≠ 200 →
      (register c o).success = false) ∧
    (o = RegisterOutcome.transportError → (register c o).success = false) := by
  refine ⟨?_, ?_, ?_, ?_⟩
  · cases o <;> simp [register]
  · cases o <;> rfl
  · intro code body ho hne
    subst ho
    simp [register, hne]
  · intro ho
    subst ho
    rfl

theorem register_single_round_trip_witness :
    (register sampleClient
        (RegisterOutcome.response 500
          { heartBeatIntervalMinutes := none, verificationRules := none })).roundTrips ≤ 1 ∧
    (register sampleClient
        (RegisterOutcome.response 500
          { heartBeatIntervalMinutes := none, verificationRules := none })).updateRulesCalls = [] ∧
    (register sampleClient
        (RegisterOutcome.response 500
          { heartBeatIntervalMinutes := none, verificationRules := none })).success = false :=
  ⟨(register_single_round_trip sampleClient
      (RegisterOutcome.response 500
        { heartBeatIntervalMinutes := none, verificationRules := none })).1,
    (register_single_round_trip sampleClient
      (RegisterOutcome.response 500
        { heartBeatIntervalMinutes := none, verificationRules := none })).2.1,
    (register_single_round_trip sampleClient
      (RegisterOutcome.response 500
        { heartBeatIntervalMinutes := none, verificationRules := none })).2.2.1 500
      { heartBeatIntervalMinutes := none, verificationRules := none } rfl (by decide)⟩

/-- C8: local identity resolution, run once by `NewClient`, returns the
first enumerated address that is IPv4 and not a loopback address (its
`find?` under `usableAddr`); when no such address exists it returns the
error and construction of the client fails with that error, with no
retry.  The hypothesis records that `net.InterfaceAddrs()` yields
`*net.IPNet` entries, so the source's type assertion never discards an
address. -/
theorem getLocalIP_first_usable (addrs : List Addr)
    (h : ∀ a ∈ addrs, a.isIPNet = true) :
    getLocalIP addrs =
      (match addrs.find? usableAddr with
        | some a => Except.ok a.ipString
        | none => Except.error "couldn't obtain a webhook IP address") ∧
    (addrs.find? usableAddr = none →
      ∀ (port : Int) (u s ns : String) (hb : Nat),
        NewClient port u s ns hb addrs =
          Except.error "couldn't obtain a webhook IP address") := by
  refine ⟨getLocalIP_find addrs h, ?_⟩
  intro hnone port u s ns hb
  unfold NewClient
  rw [getLocalIP_find addrs h, hnone]

theorem getLocalIP_first_usable_witness :
    getLocalIP
        [⟨true, true, true, "127.0.0.1"⟩, ⟨true, false, true, "10.1.2.3"⟩] =
      (match
          (([⟨true, true, true, "127.0.0.1"⟩,
            ⟨true, false, true, "10.1.2.3"⟩] : List Addr).find? usableAddr) with
        | some a => Except.ok a.ipString
        | none => Except.error "couldn't obtain a webhook IP address") ∧
    ((([⟨true, true, true, "127.0.0.1"⟩,
        ⟨true, false, true, "10.1.2.3"⟩] : List Addr).find? usableAddr) = none →
      ∀ (port : Int) (u s ns : String) (hb : Nat),
        NewClient port u s ns hb
            [⟨true, true, true, "127.0.0.1"⟩, ⟨true, false, true, "10.1.2.3"⟩] =
          Except.error "couldn't obtain a webhook IP address") :=
  getLocalIP_first_usable
    [⟨true, true, true, "127.0.0.1"⟩, ⟨true, false, true, "10.1.2.3"⟩]
    (by decide)

/-- C9 counterexample: a successful registration whose 200 response
carries a controller-supplied heartbeat-interval hint of 7 minutes
leaves the client unchanged, and the following successful heartbeat
cycle still waits the constructor-supplied 600 seconds, not the
controller-supplied 7 minutes (420 seconds) — no override is ever
recorded. -/
theorem heartbeat_interval_override_counterexample :
    (register sampleClient
        (RegisterOutcome.response 200
          { heartBeatIntervalMinutes := some 7,
            verificationRules := none })).client = sampleClient ∧
    (startHeartbeatCycle
        (register sampleClient
            (RegisterOutcome.response 200
              { heartBeatIntervalMinutes := some 7,
                verificationRules := none })).client
        "v1" (HeartbeatOutcome.response 200)).sleep = 600 * timeSecond ∧
    600 * timeSecond ≠ 7 * 60 * timeSecond := by
  refine ⟨rfl, rfl, ?_⟩
  decide

/-- C9 amended: the registration response's heartbeat-interval field is
ignored: `register` leaves the client unchanged, and every successful
heartbeat cycle after it waits exactly the constructor-supplied
interval. -/
theorem heartbeat_interval_constructor_only (c : Client) (o : RegisterOutcome)
    (v : String) :
    (register c o).client = c ∧
    (startHeartbeatCycle (register c o).client v
        (HeartbeatOutcome.response 200)).sleep = c.heartbeatInterval := by
  refine ⟨register_client_eq c o, ?_⟩
  rw [register_client_eq c o]
  exact startHeartbeatCycle_sleep_ok c v

/-- C10: after `NewClient` returns a client, no operation mutates any
of its fields: `register` returns the receiver unchanged, every
registration attempt sends the request built from the
construction-fixed fields, every heartbeat request carries the
construction-fixed `ipAddress`, `port`, `serviceName` and namespace,
and every success-path wait uses the interval passed to `NewClient`. -/
theorem client_fields_immutable (port : Int) (u s ns : String) (hb : Nat)
    (addrs : List Addr) (c : Client) (outcomes : Nat → RegisterOutcome)
    (r : Nat → Nat) (v : Nat → String) (ho : Nat → HeartbeatOutcome) (n : Nat)
    (hc : NewClient port u s ns hb addrs = Except.ok c) :
    (∀ o, (register c o).client = c) ∧
    c.webhookPort = port ∧ c.serviceName = s ∧ c.nspace = ns ∧
    c.heartbeatInterval = hb ∧
    (∀ req ∈ (registerWithBackoff c outcomes r).requests,
      req = registrationRequestOf c) ∧
    (∀ rec ∈ startHeartbeat c v ho n,
      rec.request.ipAddress = c.webhookIP ∧ rec.request.port = port ∧
      rec.request.serviceName = s ∧ rec.request.nspace = ns) ∧
    (∀ i, i < n → ho i = HeartbeatOutcome.response 200 →
      ∃ rec, (startHeartbeat c v ho n).get? i = some rec ∧ rec.sleep = hb) := by
  have hfields : c.webhookPort = port ∧ c.serviceName = s ∧ c.nspace = ns ∧
      c.heartbeatInterval = hb := by
    unfold NewClient at hc
    cases hip : getLocalIP addrs with
    | error e =>
      rw [hip] at hc
      exact absurd hc (by simp)
    | ok ip =>
      rw [hip] at hc
      simp only [Except.ok.injEq] at hc
      rw [← hc]
      exact ⟨rfl, rfl, rfl, rfl⟩
  obtain ⟨h1, h2, h3, h4⟩ := hfields
  refine ⟨register_client_eq c, h1, h2, h3, h4, ?_, ?_, ?_⟩
  · intro req hreq
    unfold registerWithBackoff at hreq
    exact registerWithBackoffLoop_requests c outcomes r
      MAX_REGISTRATION_ATTEMPTS 0 req hreq
  · intro rec hrec
    obtain ⟨i, _, he⟩ := startHeartbeat_mem c v ho n rec hrec
    rw [he, startHeartbeatCycle_request]
    exact ⟨rfl, h1, h2, h3⟩
  · intro i hi hok
    refine ⟨startHeartbeatCycle c (v i) (ho i), startHeartbeat_get c v ho n i hi, ?_⟩
    rw [hok, startHeartbeatCycle_sleep_ok]
    exact h4

theorem client_fields_immutable_witness :
    (∀ o, (register sampleClient o).client = sampleClient) ∧
    sampleClient.webhookPort = 9000 ∧
    sampleClient.serviceName = "order-service" ∧
    sampleClient.nspace = "default" ∧
    sampleClient.heartbeatInterval = 600 * timeSecond ∧
    (∀ req ∈ (registerWithBackoff sampleClient
        (fun _ => RegisterOutcome.transportError) (fun _ => 0)).requests,
      req = registrationRequestOf sampleClient) ∧
    (∀ rec ∈ startHeartbeat sampleClient (fun _ => "v1")
        (fun _ => HeartbeatOutcome.response 200) 1,
      rec.request.ipAddress = sampleClient.webhookIP ∧
      rec.request.port = 9000 ∧
      rec.request.serviceName = "order-service" ∧
      rec.request.nspace = "default") ∧
    (∀ i, i < 1 → HeartbeatOutcome.response 200 = HeartbeatOutcome.response 200 →
      ∃ rec, (startHeartbeat sampleClient (fun _ => "v1")
          (fun _ => HeartbeatOutcome.response 200) 1).get? i = some rec ∧
        rec.sleep = 600 * timeSecond) :=
  client_fields_immutable 9000 "https://tconfigd.example" "order-service" "default"
    (600 * timeSecond) [⟨true, false, true, "10.0.0.7"⟩] sampleClient
    (fun _ => RegisterOutcome.transportError) (fun _ => 0) (fun _ => "v1")
    (fun _ => HeartbeatOutcome.response 200) 1 rfl
